import Mathlib

/-!
Shallow embedding of the signup/verification flow controller and the
recommendation request panel of the library-recommendation web client
(src/src/pages/Signup.tsx and src/src/pages/Recommendations.tsx).

Each React event handler is embedded as a pure function from the outcomes of
the network calls it awaits (given as Except values) and the component state
read by the handler, to the ordered list of primitive effects the handler
performs: state-setter invocations, network calls, error-handler invocations,
navigation and alerts. A separate fold (runActions / runRecActions) applies
the state-setter effects to the component state, yielding the state after the
handler completes.
-/

namespace LibraryRec

/-- The two steps of the signup flow, from the source type SignupStep. -/
inductive SignupStep
  | signup
  | verification
deriving DecidableEq

/-- Field-level error messages, from the source type ErrorState. A field that
the validate helper never assigned is none (the key is absent in the object). -/
structure ErrorState where
  name : Option String := none
  email : Option String := none
  password : Option String := none
  confirmPassword : Option String := none
  code : Option String := none
deriving DecidableEq

/-- Kind of a resend notification, from the source union success | error. -/
inductive ResendKind
  | success
  | error
deriving DecidableEq

/-- An ephemeral resend notification, from the source type ResendStatus. -/
structure ResendStatus where
  message : String
  type : ResendKind
deriving DecidableEq

/-- A JavaScript value rejected by a provider call, as far as the catch blocks
inspect it: whether it is a non-null object, whether it has a name property,
and that property when present. -/
structure JsErr where
  isObject : Bool := true
  hasName : Bool := true
  name : String := ""
deriving DecidableEq

/-- The discriminator of the signup catch block:
typeof err is object, err is not null, name is in err, and
err.name equals UsernameExistsException. -/
def isUsernameExists (e : JsErr) : Bool :=
  e.isObject && e.hasName && (e.name == "UsernameExistsException")

/-- View state of the Signup component: the useState cells the handlers read
and write. -/
structure SignupState where
  step : SignupStep := SignupStep.signup
  name : String := ""
  email : String := ""
  password : String := ""
  confirmPassword : String := ""
  verificationCode : String := ""
  errors : ErrorState := {}
  isLoading : Bool := false
  resendStatus : Option ResendStatus := none
deriving DecidableEq

/-- View state of the Recommendations component. -/
structure RecState where
  query : String := ""
  recommendationText : String := ""
  isLoading : Bool := false
deriving DecidableEq

/-- A primitive effect performed by a handler, in program order. -/
inductive Action
  | setStep (s : SignupStep)
  | setErrors (e : ErrorState)
  | setIsLoading (b : Bool)
  | setResendStatus (r : Option ResendStatus)
  | setRecommendationText (t : String)
  | callSignup (email password name : String)
  | callVerifyCode (email code : String)
  | callResendCode (email : String)
  | callGetRecommendations (q : String)
  | handleApiError (e : JsErr)
  | navigate (dest : String)
  | alert (msg : String)
deriving DecidableEq

/-- Modelled from the spec: validateRequired comes from the utils/validation
module, which is not among the provided sources. Per the spec a required
field must be non-empty after trimming, i.e. contain at least one
non-whitespace character. -/
def validateRequired (s : String) : Bool :=
  s.data.any (fun c => !c.isWhitespace)

/-- Splitting a character list at every occurrence of a separator. -/
def splitOnChar (sep : Char) : List Char → List (List Char)
  | [] => [[]]
  | c :: cs =>
    match splitOnChar sep cs with
    | [] => [[]]
    | r :: rs => if c == sep then [] :: r :: rs else (c :: r) :: rs

/-- Modelled from the spec: validateEmail comes from the utils/validation
module, which is not among the provided sources. Per the spec the email must
match a standard email syntax check: a single at-sign separating a non-empty,
whitespace-free local part from a domain of at least two non-empty,
whitespace-free dot-separated labels. -/
def validateEmail (s : String) : Bool :=
  match splitOnChar '@' s.data with
  | [loc, dom] =>
    let parts := splitOnChar '.' dom
    (!loc.isEmpty) && (!loc.any Char.isWhitespace) &&
      decide (2 ≤ parts.length) &&
      parts.all (fun p => (!p.isEmpty) && (!p.any Char.isWhitespace))
  | _ => false

/-- Modelled from the spec: validatePassword comes from the utils/validation
module, which is not among the provided sources. Per the spec the password
must satisfy a minimum-length-8 policy with at least one uppercase letter,
one lowercase letter, and one digit. -/
def validatePassword (s : String) : Bool :=
  decide (8 ≤ s.data.length) && s.data.any Char.isUpper &&
    s.data.any Char.isLower && s.data.any Char.isDigit

/-- The newErrors object built by the validate helper of Signup (source lines
48 to 72): one conditional assignment per field, evaluated in source order on
an initially empty object. -/
def computeErrors (st : SignupState) : ErrorState :=
  let e0 : ErrorState := {}
  let e1 :=
    if !validateRequired st.name then { e0 with name := some "Name is required" }
    else e0
  let e2 :=
    if !validateRequired st.email then { e1 with email := some "Email is required" }
    else if !validateEmail st.email then { e1 with email := some "Invalid email format" }
    else e1
  let e3 :=
    if !validateRequired st.password then
      { e2 with password := some "Password is required" }
    else if !validatePassword st.password then
      { e2 with password := some "Password must be at least 8 characters with uppercase, lowercase, and number" }
    else e2
  if st.password ≠ st.confirmPassword then
    { e3 with confirmPassword := some "Passwords do not match" }
  else e3

/-- Object.keys(newErrors).length === 0: no field of the error object was
assigned. -/
def ErrorState.noKeys (e : ErrorState) : Bool :=
  e.name.isNone && e.email.isNone && e.password.isNone &&
    e.confirmPassword.isNone && e.code.isNone

/-- handleSignupSubmit (source lines 78 to 113). validate always stores the
fresh error object; an invalid draft returns before anything else. Otherwise
the loading flag is raised, the resend notification is cleared, signup is
awaited, the UsernameExistsException discriminator chooses between the
recovery path (email error, step change, automatic resend whose failure is
swallowed) and the generic error handler, and the finally block clears the
loading flag. -/
def handleSignupSubmit (signupResult resendResult : Except JsErr Unit)
    (st : SignupState) : List Action :=
  let newErrors := computeErrors st
  if !(ErrorState.noKeys newErrors) then
    [Action.setErrors newErrors]
  else
    [Action.setErrors newErrors, Action.setIsLoading true,
      Action.setResendStatus none,
      Action.callSignup st.email st.password st.name] ++
    (match signupResult with
     | Except.ok _ => [Action.setStep SignupStep.verification]
     | Except.error err =>
       if isUsernameExists err then
         [Action.setErrors
            { email := some "User already exists. Please verify your email." },
          Action.setStep SignupStep.verification,
          Action.callResendCode st.email] ++
         (match resendResult with
          | Except.ok _ =>
            [Action.setResendStatus
               (some { message := "A new verification code has been sent to your email.",
                       type := ResendKind.success })]
          | Except.error _ => [])
       else
         [Action.handleApiError err]) ++
    [Action.setIsLoading false]

/-- handleVerificationSubmit (source lines 119 to 138). An empty code (the
only falsy string) sets a presence error and returns; otherwise verifyCode is
awaited under the loading flag, success navigates to the login page, any
rejection is forwarded to the generic handler and reported as an invalid
code, and the finally block clears the loading flag. -/
def handleVerificationSubmit (verifyResult : Except JsErr Unit)
    (st : SignupState) : List Action :=
  if st.verificationCode.isEmpty then
    [Action.setErrors { code := some "Verification code is required" }]
  else
    [Action.setIsLoading true,
      Action.callVerifyCode st.email st.verificationCode] ++
    (match verifyResult with
     | Except.ok _ => [Action.navigate "/login"]
     | Except.error err =>
       [Action.handleApiError err,
        Action.setErrors { code := some "Invalid verification code" }]) ++
    [Action.setIsLoading false]

/-- handleResendCode (source lines 144 to 159): clear the notification, await
resendCode, and report the outcome either way. -/
def handleResendCode (resendResult : Except JsErr Unit)
    (st : SignupState) : List Action :=
  [Action.setResendStatus none, Action.callResendCode st.email] ++
  (match resendResult with
   | Except.ok _ =>
     [Action.setResendStatus
        (some { message := "New code sent successfully!",
                type := ResendKind.success })]
   | Except.error _ =>
     [Action.setResendStatus
        (some { message := "Cannot send multiple emails in a short time. Please try again later.",
                type := ResendKind.error })])

/-- The guard on !query.trim() in the source: trimming leaves the empty
string exactly when every character of the query is whitespace. -/
def isBlank (s : String) : Bool :=
  s.data.all Char.isWhitespace

/-- handleGetRecommendations (source lines 22 to 39). A blank query alerts
and returns; otherwise the loading flag is raised, the previous result text
is cleared, getRecommendations is awaited, success stores the returned text,
failure goes to the generic handler, and the finally block clears the
loading flag. -/
def handleGetRecommendations (fetchResult : Except JsErr String)
    (st : RecState) : List Action :=
  if isBlank st.query then
    [Action.alert "Please enter a query"]
  else
    [Action.setIsLoading true, Action.setRecommendationText "",
      Action.callGetRecommendations st.query] ++
    (match fetchResult with
     | Except.ok result => [Action.setRecommendationText result]
     | Except.error err => [Action.handleApiError err]) ++
    [Action.setIsLoading false]

/-- Effect of one action on the Signup component state; non-setter actions
and the setter of the other component leave it unchanged. -/
def applyAction (st : SignupState) (a : Action) : SignupState :=
  match a with
  | Action.setStep s => { st with step := s }
  | Action.setErrors e => { st with errors := e }
  | Action.setIsLoading b => { st with isLoading := b }
  | Action.setResendStatus r => { st with resendStatus := r }
  | _ => st

/-- State of the Signup component after a handler trace completes. -/
def runActions (st : SignupState) (tr : List Action) : SignupState :=
  tr.foldl applyAction st

/-- Effect of one action on the Recommendations component state. -/
def applyRecAction (st : RecState) (a : Action) : RecState :=
  match a with
  | Action.setIsLoading b => { st with isLoading := b }
  | Action.setRecommendationText t => { st with recommendationText := t }
  | _ => st

/-- State of the Recommendations component after a handler trace completes. -/
def runRecActions (st : RecState) (tr : List Action) : RecState :=
  tr.foldl applyRecAction st

/-- Actions that issue a network request. -/
def isNetworkCall : Action → Bool
  | Action.callSignup _ _ _ => true
  | Action.callVerifyCode _ _ => true
  | Action.callResendCode _ => true
  | Action.callGetRecommendations _ => true
  | _ => false

/-- Actions that write the loading flag. -/
def isSetLoading : Action → Bool
  | Action.setIsLoading _ => true
  | _ => false

/-- Number of network requests issued by a trace. -/
def countNetworkCalls (tr : List Action) : Nat :=
  (tr.filter isNetworkCall).length

/-- The loading-flag discipline: the trace raises the flag, performs the
network call while it is raised without touching the flag again, and its very
last action lowers the flag. -/
def LoadingDiscipline (tr : List Action) : Prop :=
  ∃ pre mid,
    tr = pre ++ Action.setIsLoading true :: (mid ++ [Action.setIsLoading false]) ∧
    (∀ a ∈ pre, isSetLoading a = false) ∧
    (∀ a ∈ mid, isSetLoading a = false) ∧
    (∃ a ∈ mid, isNetworkCall a = true)

/-- The name field of the fresh error object depends only on the name rule. -/
theorem computeErrors_name (st : SignupState) :
    (computeErrors st).name =
      if !validateRequired st.name then some "Name is required" else none := by
  simp only [computeErrors]
  split_ifs <;> simp_all

/-- The email field of the fresh error object depends only on the two email
rules, checked in source order. -/
theorem computeErrors_email (st : SignupState) :
    (computeErrors st).email =
      if !validateRequired st.email then some "Email is required"
      else if !validateEmail st.email then some "Invalid email format"
      else none := by
  simp only [computeErrors]
  split_ifs <;> simp_all

/-- The password field of the fresh error object depends only on the two
password rules, checked in source order. -/
theorem computeErrors_password (st : SignupState) :
    (computeErrors st).password =
      if !validateRequired st.password then some "Password is required"
      else if !validatePassword st.password then some "Password must be at least 8 characters with uppercase, lowercase, and number"
      else none := by
  simp only [computeErrors]
  split_ifs <;> simp_all

/-- The confirmPassword field of the fresh error object depends only on the
equality of the two password inputs, not on the password rule itself. -/
theorem computeErrors_confirmPassword (st : SignupState) :
    (computeErrors st).confirmPassword =
      if st.password ≠ st.confirmPassword then some "Passwords do not match"
      else none := by
  simp only [computeErrors]
  split_ifs <;> simp_all

/-- The signup-step validator never writes the code field. -/
theorem computeErrors_code (st : SignupState) :
    (computeErrors st).code = none := by
  simp only [computeErrors]
  split_ifs <;> simp_all

/-- Claim C1 fails as stated at a concrete input: with a previously rendered
result and a failing fetch, the handler does not leave the previous result
text unchanged, because it blanked the text before the call. -/
theorem C1_counterexample :
    (runRecActions { query := "mystery", recommendationText := "old result" }
        (handleGetRecommendations (Except.error {})
          { query := "mystery", recommendationText := "old result" })).recommendationText
      ≠ "old result" := by decide

/-- Claim C1 (amended): when getRecommendations rejects on a non-blank query,
the handler leaves the result text cleared to the empty string (it blanks the
text before the call and the failure path never restores it), forwards the
error to the shared handler, and issues exactly one network call, so no
automatic retry happens. -/
theorem C1_failed_fetch_clears_result (st : RecState) (e : JsErr)
    (h : isBlank st.query = false) :
    (runRecActions st (handleGetRecommendations (Except.error e) st)).recommendationText = "" ∧
    Action.handleApiError e ∈ handleGetRecommendations (Except.error e) st ∧
    countNetworkCalls (handleGetRecommendations (Except.error e) st) = 1 := by
  simp [handleGetRecommendations, h, runRecActions, List.foldl, applyRecAction,
    countNetworkCalls, List.filter, isNetworkCall]

/-- Witness for the amended claim C1 at a concrete failing request. -/
theorem C1_failed_fetch_clears_result_witness :
    (runRecActions { query := "mystery", recommendationText := "old result" }
        (handleGetRecommendations (Except.error {})
          { query := "mystery", recommendationText := "old result" })).recommendationText = "" ∧
    Action.handleApiError {} ∈
      handleGetRecommendations (Except.error {})
        { query := "mystery", recommendationText := "old result" } ∧
    countNetworkCalls
      (handleGetRecommendations (Except.error {})
        { query := "mystery", recommendationText := "old result" }) = 1 :=
  C1_failed_fetch_clears_result
    { query := "mystery", recommendationText := "old result" } {} (by decide)

/-- Claim C5: a draft whose confirmPassword differs from password always gets
the mismatch error, independently of the password rule outcome. -/
theorem C5_mismatch_always_flagged (st : SignupState)
    (h : st.password ≠ st.confirmPassword) :
    (computeErrors st).confirmPassword = some "Passwords do not match" := by
  rw [computeErrors_confirmPassword, if_pos h]

/-- Witness for claim C5 with a password that itself satisfies the policy. -/
theorem C5_mismatch_always_flagged_witness :
    (computeErrors { password := "Abc12345", confirmPassword := "Abc12346" }).confirmPassword
      = some "Passwords do not match" :=
  C5_mismatch_always_flagged
    { password := "Abc12345", confirmPassword := "Abc12346" } (by decide)

/-- Claim C10: the verification presence check does not trim; any non-empty
code, whitespace-only included, passes it and verifyCode is called with that
code. -/
theorem C10_presence_check_untrimmed (res : Except JsErr Unit) (st : SignupState)
    (h : st.verificationCode.isEmpty = false) :
    Action.callVerifyCode st.email st.verificationCode ∈
      handleVerificationSubmit res st := by
  cases res <;> simp [handleVerificationSubmit, h]

/-- Witness for claim C10 at a whitespace-only verification code. -/
theorem C10_presence_check_untrimmed_witness :
    Action.callVerifyCode "" "   " ∈
      handleVerificationSubmit (Except.ok ()) { verificationCode := "   " } :=
  C10_presence_check_untrimmed (Except.ok ()) { verificationCode := "   " } (by decide)
/-- Claim C6: a verification submission with a non-empty code whose verifyCode
call rejects sets the invalid-code field error and leaves the step unchanged,
so a flow on the Verification step remains there. -/
theorem C6_verify_reject_keeps_step (st : SignupState) (e : JsErr)
    (h : st.verificationCode.isEmpty = false) :
    (runActions st (handleVerificationSubmit (Except.error e) st)).errors.code
        = some "Invalid verification code" ∧
    (runActions st (handleVerificationSubmit (Except.error e) st)).step = st.step := by
  simp [handleVerificationSubmit, h, runActions, List.foldl, applyAction]

/-- Witness for claim C6 on the Verification step with a concrete code. -/
theorem C6_verify_reject_keeps_step_witness :
    (runActions { step := SignupStep.verification, verificationCode := "123456" }
        (handleVerificationSubmit (Except.error {})
          { step := SignupStep.verification, verificationCode := "123456" })).errors.code
        = some "Invalid verification code" ∧
    (runActions { step := SignupStep.verification, verificationCode := "123456" }
        (handleVerificationSubmit (Except.error {})
          { step := SignupStep.verification, verificationCode := "123456" })).step
        = SignupStep.verification :=
  C6_verify_reject_keeps_step
    { step := SignupStep.verification, verificationCode := "123456" } {} (by decide)

/-- Claim C9: the verification failure path does no error discrimination: any
rejected value, of any shape, is forwarded to the shared generic handler and
also reported to the user as an invalid code. -/
theorem C9_verify_no_discrimination (st : SignupState) (e : JsErr)
    (h : st.verificationCode.isEmpty = false) :
    Action.handleApiError e ∈ handleVerificationSubmit (Except.error e) st ∧
    (runActions st (handleVerificationSubmit (Except.error e) st)).errors.code
        = some "Invalid verification code" := by
  simp [handleVerificationSubmit, h, runActions, List.foldl, applyAction]

/-- Witness for claim C9 at a non-object rejection, such as a plain network
failure value. -/
theorem C9_verify_no_discrimination_witness :
    Action.handleApiError { isObject := false, hasName := false, name := "" } ∈
      handleVerificationSubmit
        (Except.error { isObject := false, hasName := false, name := "" })
        { verificationCode := "123" } ∧
    (runActions { verificationCode := "123" }
        (handleVerificationSubmit
          (Except.error { isObject := false, hasName := false, name := "" })
          { verificationCode := "123" })).errors.code
        = some "Invalid verification code" :=
  C9_verify_no_discrimination { verificationCode := "123" }
    { isObject := false, hasName := false, name := "" } (by decide)

/-- Claim C7: a user-triggered resend always ends with a ResendStatus set:
success kind when resendCode resolves, error kind with the rate-limit message
when it rejects. -/
theorem C7_manual_resend_reports (res : Except JsErr Unit) (st : SignupState) :
    (∀ u, res = Except.ok u →
      (runActions st (handleResendCode res st)).resendStatus
        = some { message := "New code sent successfully!", type := ResendKind.success }) ∧
    (∀ e, res = Except.error e →
      (runActions st (handleResendCode res st)).resendStatus
        = some { message := "Cannot send multiple emails in a short time. Please try again later.", type := ResendKind.error }) := by
  cases res <;> simp [handleResendCode, runActions, List.foldl, applyAction]

/-- Witness for claim C7: both resend outcomes at a concrete state. -/
theorem C7_manual_resend_reports_witness :
    (runActions { email := "a@b.com" }
        (handleResendCode (Except.ok ()) { email := "a@b.com" })).resendStatus
      = some { message := "New code sent successfully!", type := ResendKind.success } ∧
    (runActions { email := "a@b.com" }
        (handleResendCode (Except.error {}) { email := "a@b.com" })).resendStatus
      = some { message := "Cannot send multiple emails in a short time. Please try again later.", type := ResendKind.error } :=
  ⟨(C7_manual_resend_reports (Except.ok ()) { email := "a@b.com" }).1 () rfl,
   (C7_manual_resend_reports (Except.error {}) { email := "a@b.com" }).2 {} rfl⟩
/-- Claim C2: when a locally valid draft is submitted and signup rejects with
an error named UsernameExistsException, the handler sets the email field
error, advances the step to Verification and automatically calls resendCode
for the submitted email; these hold for either auto-resend outcome, and when
the auto-resend fails the failure is swallowed: the notification stays
cleared, no error-kind ResendStatus is ever stored and no generic error
report runs. -/
theorem C2_exists_recovery (sr rr : Except JsErr Unit) (st : SignupState)
    (err : JsErr)
    (hval : ErrorState.noKeys (computeErrors st) = true)
    (hsr : sr = Except.error err)
    (hex : isUsernameExists err = true) :
    (runActions st (handleSignupSubmit sr rr st)).errors.email
        = some "User already exists. Please verify your email." ∧
    (runActions st (handleSignupSubmit sr rr st)).step = SignupStep.verification ∧
    Action.callResendCode st.email ∈ handleSignupSubmit sr rr st ∧
    (∀ e2, rr = Except.error e2 →
      (runActions st (handleSignupSubmit sr rr st)).resendStatus = none ∧
      (∀ m, Action.setResendStatus (some { message := m, type := ResendKind.error })
          ∉ handleSignupSubmit sr rr st) ∧
      (∀ e3, Action.handleApiError e3 ∉ handleSignupSubmit sr rr st)) := by
  subst hsr
  cases rr <;>
    simp [handleSignupSubmit, hval, hex, runActions, List.foldl, applyAction]

/-- Witness for claim C2 at a concrete valid draft, an exists-rejection and a
failing automatic resend. -/
theorem C2_exists_recovery_witness :
    (runActions
        { name := "Alice", email := "a@b.com", password := "Abc12345",
          confirmPassword := "Abc12345" }
        (handleSignupSubmit (Except.error { name := "UsernameExistsException" })
          (Except.error {})
          { name := "Alice", email := "a@b.com", password := "Abc12345",
            confirmPassword := "Abc12345" })).errors.email
        = some "User already exists. Please verify your email." ∧
    (runActions
        { name := "Alice", email := "a@b.com", password := "Abc12345",
          confirmPassword := "Abc12345" }
        (handleSignupSubmit (Except.error { name := "UsernameExistsException" })
          (Except.error {})
          { name := "Alice", email := "a@b.com", password := "Abc12345",
            confirmPassword := "Abc12345" })).step = SignupStep.verification ∧
    Action.callResendCode "a@b.com" ∈
      handleSignupSubmit (Except.error { name := "UsernameExistsException" })
        (Except.error {})
        { name := "Alice", email := "a@b.com", password := "Abc12345",
          confirmPassword := "Abc12345" } ∧
    (runActions
        { name := "Alice", email := "a@b.com", password := "Abc12345",
          confirmPassword := "Abc12345" }
        (handleSignupSubmit (Except.error { name := "UsernameExistsException" })
          (Except.error {})
          { name := "Alice", email := "a@b.com", password := "Abc12345",
            confirmPassword := "Abc12345" })).resendStatus = none :=
  have h := C2_exists_recovery (Except.error { name := "UsernameExistsException" })
    (Except.error {})
    { name := "Alice", email := "a@b.com", password := "Abc12345",
      confirmPassword := "Abc12345" }
    { name := "UsernameExistsException" } (by decide) rfl (by decide)
  ⟨h.1, h.2.1, h.2.2.1, (h.2.2.2 {} rfl).1⟩

/-- Claim C3 fails as stated at a concrete input: a submission that fails
local validation returns before the clear, so a previously stored
ResendStatus is not cleared to null. -/
theorem C3_counterexample :
    ¬ ((runActions
          { name := "", email := "a@b.com", password := "Abc12345",
            confirmPassword := "Abc12345",
            resendStatus := some { message := "old note", type := ResendKind.success } }
          (handleSignupSubmit (Except.ok ()) (Except.ok ())
            { name := "", email := "a@b.com", password := "Abc12345",
              confirmPassword := "Abc12345",
              resendStatus := some { message := "old note", type := ResendKind.success } })).resendStatus
        = none) := by decide

/-- Claim C3 (amended): the ResendStatus notification is cleared to null on
every signup submission that passes local validation; a submission failing
local validation returns before the clear and leaves ResendStatus unchanged. -/
theorem C3_clear_on_valid_submission (sr rr : Except JsErr Unit) (st : SignupState) :
    (ErrorState.noKeys (computeErrors st) = true →
      Action.setResendStatus none ∈ handleSignupSubmit sr rr st) ∧
    (ErrorState.noKeys (computeErrors st) = false →
      (runActions st (handleSignupSubmit sr rr st)).resendStatus = st.resendStatus) := by
  constructor
  · intro h
    cases sr <;> simp [handleSignupSubmit, h]
  · intro h
    simp [handleSignupSubmit, h, runActions, List.foldl, applyAction]

/-- Witness for the amended claim C3: a valid draft clears the notification,
an invalid draft leaves a stored notification in place. -/
theorem C3_clear_on_valid_submission_witness :
    Action.setResendStatus none ∈
      handleSignupSubmit (Except.ok ()) (Except.ok ())
        { name := "Alice", email := "a@b.com", password := "Abc12345",
          confirmPassword := "Abc12345" } ∧
    (runActions
        { name := "",
          resendStatus := some { message := "old note", type := ResendKind.success } }
        (handleSignupSubmit (Except.ok ()) (Except.ok ())
          { name := "",
            resendStatus := some { message := "old note", type := ResendKind.success } })).resendStatus
      = some { message := "old note", type := ResendKind.success } :=
  ⟨(C3_clear_on_valid_submission (Except.ok ()) (Except.ok ())
      { name := "Alice", email := "a@b.com", password := "Abc12345",
        confirmPassword := "Abc12345" }).1 (by decide),
   (C3_clear_on_valid_submission (Except.ok ()) (Except.ok ())
      { name := "",
        resendStatus := some { message := "old note", type := ResendKind.success } }).2
     (by decide)⟩

/-- Claim C4: for a draft failing any of the four rules, submission surfaces a
message on every failing field simultaneously and issues no network call; the
example draft with only an empty name yields exactly the name error. -/
theorem C4_all_errors_no_call (sr rr : Except JsErr Unit) (st : SignupState)
    (h : ErrorState.noKeys (computeErrors st) = false) :
    (validateRequired st.name = false →
      (computeErrors st).name = some "Name is required") ∧
    (validateRequired st.email = false →
      (computeErrors st).email = some "Email is required") ∧
    (validateRequired st.email = true → validateEmail st.email = false →
      (computeErrors st).email = some "Invalid email format") ∧
    (validateRequired st.password = false →
      (computeErrors st).password = some "Password is required") ∧
    (validateRequired st.password = true → validatePassword st.password = false →
      (computeErrors st).password = some "Password must be at least 8 characters with uppercase, lowercase, and number") ∧
    (st.password ≠ st.confirmPassword →
      (computeErrors st).confirmPassword = some "Passwords do not match") ∧
    (∀ a ∈ handleSignupSubmit sr rr st, isNetworkCall a = false) ∧
    computeErrors
        { name := "", email := "a@b.com", password := "Abc12345",
          confirmPassword := "Abc12345" }
      = { name := some "Name is required" } := by
  refine ⟨?_, ?_, ?_, ?_, ?_, ?_, ?_, by decide⟩
  · intro h1; rw [computeErrors_name]; simp [h1]
  · intro h1; rw [computeErrors_email]; simp [h1]
  · intro h1 h2; rw [computeErrors_email]; simp [h1, h2]
  · intro h1; rw [computeErrors_password]; simp [h1]
  · intro h1 h2; rw [computeErrors_password]; simp [h1, h2]
  · intro h1; rw [computeErrors_confirmPassword, if_pos h1]
  · intro a ha
    simp [handleSignupSubmit, h] at ha
    simp [ha, isNetworkCall]

/-- Witness for claim C4 at the example draft of the spec. -/
theorem C4_all_errors_no_call_witness :
    (computeErrors
        { name := "", email := "a@b.com", password := "Abc12345",
          confirmPassword := "Abc12345" }).name = some "Name is required" ∧
    (∀ a ∈ handleSignupSubmit (Except.ok ()) (Except.ok ())
        { name := "", email := "a@b.com", password := "Abc12345",
          confirmPassword := "Abc12345" }, isNetworkCall a = false) ∧
    computeErrors
        { name := "", email := "a@b.com", password := "Abc12345",
          confirmPassword := "Abc12345" }
      = { name := some "Name is required" } :=
  have h := C4_all_errors_no_call (Except.ok ()) (Except.ok ())
    { name := "", email := "a@b.com", password := "Abc12345",
      confirmPassword := "Abc12345" } (by decide)
  ⟨h.1 (by decide), h.2.2.2.2.2.2.1, h.2.2.2.2.2.2.2⟩
/-- A trace of the given shape satisfies the loading-flag discipline. -/
theorem loadingDiscipline_of_shape (pre mid : List Action)
    (hpre : ∀ a ∈ pre, isSetLoading a = false)
    (hmid : ∀ a ∈ mid, isSetLoading a = false)
    (hcall : ∃ a ∈ mid, isNetworkCall a = true) :
    LoadingDiscipline
      (pre ++ Action.setIsLoading true :: (mid ++ [Action.setIsLoading false])) :=
  ⟨pre, mid, rfl, hpre, hmid, hcall⟩

/-- Claim C8: each of the three guarded operations, once past its local
guard, raises the loading flag, performs its network call while the flag is
raised, and lowers the flag as its very last action, on the success path and
on every failure path. -/
theorem C8_loading_discipline :
    (∀ sr rr st, ErrorState.noKeys (computeErrors st) = true →
      LoadingDiscipline (handleSignupSubmit sr rr st)) ∧
    (∀ vr st, (st : SignupState).verificationCode.isEmpty = false →
      LoadingDiscipline (handleVerificationSubmit vr st)) ∧
    (∀ fr st, isBlank (st : RecState).query = false →
      LoadingDiscipline (handleGetRecommendations fr st)) := by
  refine ⟨?_, ?_, ?_⟩
  · intro sr rr st h
    cases sr with
    | ok u =>
      have hsh : handleSignupSubmit (Except.ok u) rr st
          = [Action.setErrors (computeErrors st)] ++ Action.setIsLoading true ::
            ([Action.setResendStatus none,
              Action.callSignup st.email st.password st.name,
              Action.setStep SignupStep.verification] ++ [Action.setIsLoading false]) := by
        simp [handleSignupSubmit, h]
      rw [hsh]
      exact loadingDiscipline_of_shape _ _ (by simp [isSetLoading])
        (by simp [isSetLoading])
        ⟨Action.callSignup st.email st.password st.name, by simp, rfl⟩
    | error err =>
      by_cases hex : isUsernameExists err = true
      · cases rr with
        | ok u =>
          have hsh : handleSignupSubmit (Except.error err) (Except.ok u) st
              = [Action.setErrors (computeErrors st)] ++ Action.setIsLoading true ::
                ([Action.setResendStatus none,
                  Action.callSignup st.email st.password st.name,
                  Action.setErrors
                    { email := some "User already exists. Please verify your email." },
                  Action.setStep SignupStep.verification,
                  Action.callResendCode st.email,
                  Action.setResendStatus
                    (some { message := "A new verification code has been sent to your email.",
                            type := ResendKind.success })] ++ [Action.setIsLoading false]) := by
            simp [handleSignupSubmit, h, hex]
          rw [hsh]
          exact loadingDiscipline_of_shape _ _ (by simp [isSetLoading])
            (by simp [isSetLoading])
            ⟨Action.callSignup st.email st.password st.name, by simp, rfl⟩
        | error e2 =>
          have hsh : handleSignupSubmit (Except.error err) (Except.error e2) st
              = [Action.setErrors (computeErrors st)] ++ Action.setIsLoading true ::
                ([Action.setResendStatus none,
                  Action.callSignup st.email st.password st.name,
                  Action.setErrors
                    { email := some "User already exists. Please verify your email." },
                  Action.setStep SignupStep.verification,
                  Action.callResendCode st.email] ++ [Action.setIsLoading false]) := by
            simp [handleSignupSubmit, h, hex]
          rw [hsh]
          exact loadingDiscipline_of_shape _ _ (by simp [isSetLoading])
            (by simp [isSetLoading])
            ⟨Action.callSignup st.email st.password st.name, by simp, rfl⟩
      · rw [Bool.not_eq_true] at hex
        have hsh : handleSignupSubmit (Except.error err) rr st
            = [Action.setErrors (computeErrors st)] ++ Action.setIsLoading true ::
              ([Action.setResendStatus none,
                Action.callSignup st.email st.password st.name,
                Action.handleApiError err] ++ [Action.setIsLoading false]) := by
          simp [handleSignupSubmit, h, hex]
        rw [hsh]
        exact loadingDiscipline_of_shape _ _ (by simp [isSetLoading])
          (by simp [isSetLoading])
          ⟨Action.callSignup st.email st.password st.name, by simp, rfl⟩
  · intro vr st h
    cases vr with
    | ok u =>
      have hsh : handleVerificationSubmit (Except.ok u) st
          = [] ++ Action.setIsLoading true ::
            ([Action.callVerifyCode st.email st.verificationCode,
              Action.navigate "/login"] ++ [Action.setIsLoading false]) := by
        simp [handleVerificationSubmit, h]
      rw [hsh]
      exact loadingDiscipline_of_shape _ _ (by simp) (by simp [isSetLoading])
        ⟨Action.callVerifyCode st.email st.verificationCode, by simp, rfl⟩
    | error e =>
      have hsh : handleVerificationSubmit (Except.error e) st
          = [] ++ Action.setIsLoading true ::
            ([Action.callVerifyCode st.email st.verificationCode,
              Action.handleApiError e,
              Action.setErrors { code := some "Invalid verification code" }]
              ++ [Action.setIsLoading false]) := by
        simp [handleVerificationSubmit, h]
      rw [hsh]
      exact loadingDiscipline_of_shape _ _ (by simp) (by simp [isSetLoading])
        ⟨Action.callVerifyCode st.email st.verificationCode, by simp, rfl⟩
  · intro fr st h
    cases fr with
    | ok r =>
      have hsh : handleGetRecommendations (Except.ok r) st
          = [] ++ Action.setIsLoading true ::
            ([Action.setRecommendationText "",
              Action.callGetRecommendations st.query,
              Action.setRecommendationText r] ++ [Action.setIsLoading false]) := by
        simp [handleGetRecommendations, h]
      rw [hsh]
      exact loadingDiscipline_of_shape _ _ (by simp) (by simp [isSetLoading])
        ⟨Action.callGetRecommendations st.query, by simp, rfl⟩
    | error e =>
      have hsh : handleGetRecommendations (Except.error e) st
          = [] ++ Action.setIsLoading true ::
            ([Action.setRecommendationText "",
              Action.callGetRecommendations st.query,
              Action.handleApiError e] ++ [Action.setIsLoading false]) := by
        simp [handleGetRecommendations, h]
      rw [hsh]
      exact loadingDiscipline_of_shape _ _ (by simp) (by simp [isSetLoading])
        ⟨Action.callGetRecommendations st.query, by simp, rfl⟩

/-- Witness for claim C8: the discipline at one concrete instance of each of
the three guarded operations. -/
theorem C8_loading_discipline_witness :
    LoadingDiscipline
      (handleSignupSubmit (Except.ok ()) (Except.ok ())
        { name := "Alice", email := "a@b.com", password := "Abc12345",
          confirmPassword := "Abc12345" }) ∧
    LoadingDiscipline
      (handleVerificationSubmit (Except.ok ()) { verificationCode := "123456" }) ∧
    LoadingDiscipline
      (handleGetRecommendations (Except.ok "some books") { query := "mystery" }) :=
  ⟨C8_loading_discipline.1 (Except.ok ()) (Except.ok ())
     { name := "Alice", email := "a@b.com", password := "Abc12345",
       confirmPassword := "Abc12345" } (by decide),
   C8_loading_discipline.2.1 (Except.ok ()) { verificationCode := "123456" } (by decide),
   C8_loading_discipline.2.2 (Except.ok "some books") { query := "mystery" } (by decide)⟩
end LibraryRec
